import Mathlib

/-!
Verification of the user / address core of the django-ecommerce repository.

The development shallowly embeds the three source files of the repository:

* `src/apps/user/models.py` — `CustomUserManager` (`_create_user`, `create_user`,
  `create_superuser`), the `User` model with its uniqueness constraints, and the
  `Address` model with its default-demoting `save` override;
* `src/apps/user/helpers.py` — `calcule_verification_code_expiration`;
* `src/apps/user/app_settings.py` — `VerificationCodeSettings`.

Persistent state (the record store) is modelled as a list of rows; Python
truthiness and Django library behaviour (`BaseUserManager.normalize_email`,
`set_password` / `set_unusable_password`, `Model.save` upsert semantics, the
store's enforcement of declared `UniqueConstraint`s) are modelled explicitly
where the embedded code calls into them.  Timestamps are integers (seconds).
-/

/-! ## Account identity manager (`CustomUserManager`, models.py lines 23-98) -/

/-- Credential state of a user.  `set_password p` stores an opaque salted hash of
`p`; we model the hash as the injective constructor `hashed p`.
`set_unusable_password` stores the explicit unusable marker, which can never
match any password. -/
inductive PasswordState where
  | hashed (password : String)
  | unusable
deriving DecidableEq, Repr

/-- The fields of a created `User` instance that the identity-manager code reads
or writes: the (normalized) email, the two role flags passed through
`extra_fields`, and the credential state. -/
structure PyUser where
  email : String
  is_staff : Bool
  is_superuser : Bool
  passwordState : PasswordState
deriving DecidableEq, Repr

/-- The `extra_fields` keyword arguments that the manager code inspects:
`is_staff` and `is_superuser`, each either absent (`none`) or caller-supplied.
`getD` models `dict.setdefault`: the default is used only when the key is
absent. -/
structure ExtraFields where
  is_staff : Option Bool := none
  is_superuser : Option Bool := none
deriving DecidableEq, Repr

/-- Python truthiness of an optional string argument (`if password:`):
`None` and the empty string are falsy, every other string is truthy. -/
def pyTruthy : Option String → Bool
  | none => false
  | some s => decide (s ≠ "")

/-- Whitespace characters removed by Python's `str.strip()`. -/
def isPySpace (c : Char) : Bool :=
  c == ' ' || c == '\t' || c == '\n' || c == '\r' || c == '\x0b' || c == '\x0c'

/-- Python's `str.strip()`: remove whitespace from both ends. -/
def pyStrip (s : List Char) : List Char :=
  ((s.dropWhile isPySpace).reverse.dropWhile isPySpace).reverse

/-- Python's `str.lower()` on the ASCII range (case-folding each character). -/
def pyLower (s : String) : String :=
  ⟨s.data.map Char.toLower⟩

/-- Split a character list at the LAST occurrence of the at sign, Python's
`s.rsplit("@", 1)`; `none` when the list contains no at sign (Python raises
`ValueError`, which `normalize_email` swallows). -/
def lastAtSplit (s : List Char) : Option (List Char × List Char) :=
  match s with
  | [] => none
  | c :: rest =>
    match lastAtSplit rest with
    | some (name, domain) => some (c :: name, domain)
    | none => if c == '@' then some ([], rest) else none

/-- Django's `BaseUserManager.normalize_email`: strip surrounding whitespace,
split at the last at sign and lowercase the domain part; a string with no at
sign is returned unchanged (not even stripped). -/
def normalize_email (email : String) : String :=
  match lastAtSplit (pyStrip email.data) with
  | none => email
  | some (name, domain) => ⟨name ++ '@' :: domain.map Char.toLower⟩

/-- `CustomUserManager._create_user` (models.py lines 26-56): raise
`ValueError` when the email is falsy (empty); otherwise normalize and lowercase
the email, build the user from `email` and the two flags taken from
`extra_fields`, hash the password when it is truthy and set the unusable
password otherwise, and save.  Errors are the `ValueError` messages. -/
def CustomUserManager._create_user (email : String) (password : Option String)
    (is_staff : Bool) (is_superuser : Bool) : Except String PyUser :=
  if email = "" then
    Except.error "The Email field cannot be empty"
  else
    let email := pyLower (normalize_email email)
    let pw :=
      if pyTruthy password then PasswordState.hashed (password.getD "")
      else PasswordState.unusable
    Except.ok { email := email, is_staff := is_staff, is_superuser := is_superuser,
                passwordState := pw }

/-- `CustomUserManager.create_user` (models.py lines 58-73):
`extra_fields.setdefault("is_staff", False)`,
`extra_fields.setdefault("is_superuser", False)`, then `_create_user`. -/
def CustomUserManager.create_user (email : String) (password : Option String)
    (extra : ExtraFields) : Except String PyUser :=
  CustomUserManager._create_user email password
    (extra.is_staff.getD false) (extra.is_superuser.getD false)

/-- `CustomUserManager.create_superuser` (models.py lines 75-98):
`setdefault` both flags to `True`, raise when either resulting flag is not
`True`, raise when the password is falsy, then `_create_user`. -/
def CustomUserManager.create_superuser (email : String) (password : Option String)
    (extra : ExtraFields) : Except String PyUser :=
  let is_staff := extra.is_staff.getD true
  let is_superuser := extra.is_superuser.getD true
  if is_staff ≠ true then
    Except.error "Superuser must have is_staff=True"
  else if is_superuser ≠ true then
    Except.error "Superuser must have is_superuser=True"
  else if !pyTruthy password then
    Except.error "Superuser must have a password"
  else
    CustomUserManager._create_user email password is_staff is_superuser

/-! ## The user table and its uniqueness constraints (models.py lines 101-121) -/

/-- A persisted `User` row: the columns constrained by `User.Meta`
(`UniqueConstraint(Lower("email"))`, `UniqueConstraint("phone")`); the phone
column is nullable (`null=True`). -/
structure UserRow where
  email : String
  phone : Option String
deriving DecidableEq, Repr

/-- Whether two user rows violate the `unique_phone_constraint`: both phones
present and equal.  SQL `NULL`s never conflict with anything, which is how a
plain unique constraint treats absent phones. -/
def phoneConflict (v u : UserRow) : Bool :=
  v.phone.isSome && decide (v.phone = u.phone)

/-- The record store's insert of a user row, enforcing the constraints declared
on the model: `unique=True` on the email column, the
`unique_email_constraint` on `Lower("email")`, and the
`unique_phone_constraint` on `phone` (models.py lines 106-107 and 115-121).
A violated constraint surfaces as a `DUPLICATE` error naming the conflicting
field; otherwise the row is appended. -/
def insertUser (u : UserRow) (db : List UserRow) : Except String (List UserRow) :=
  if db.any (fun v => decide (v.email = u.email)) then
    Except.error "DUPLICATE email"
  else if db.any (fun v => decide (pyLower v.email = pyLower u.email)) then
    Except.error "DUPLICATE email"
  else if db.any (fun v => phoneConflict v u) then
    Except.error "DUPLICATE phone"
  else
    Except.ok (db ++ [u])

/-- Whether a fallible store operation raised (any) error. -/
def exceptFailed {ε α : Type} : Except ε α → Bool
  | Except.ok _ => false
  | Except.error _ => true

/-- No two rows of the table have emails equal after lowercasing. -/
def emailsCIUnique (db : List UserRow) : Prop :=
  db.Pairwise (fun v w => pyLower v.email ≠ pyLower w.email)

/-- Any two rows of the table with a present phone have distinct phones. -/
def phonesUnique (db : List UserRow) : Prop :=
  db.Pairwise (fun v w => v.phone.isSome → v.phone ≠ w.phone)

/-! ## Address model (models.py lines 138-211) -/

/-- A persisted `Address` row: the user-settable columns of the model.
`id` is the primary key; `address_type` holds the one-character choice value
("B" for billing, "S" for shipping).  The store-managed `created_at` /
`updated_at` timestamps (`auto_now_add` / `auto_now`) are maintained by the
record store outside the embedded logic and are omitted. -/
structure AddressRow where
  id : Nat
  user : Nat
  country : String
  first_name : String
  last_name : String
  phone : String
  street_1 : String
  street_2 : String
  region : String
  city : String
  postal_code : String
  address_type : String
  default : Bool
deriving DecidableEq, Repr

/-- The demotion query of `Address.save` (models.py lines 205-209):
`Address.objects.filter(user=..., address_type=..., default=True).update(default=False)`
applied to one row.  Note the filter does not exclude the saved address's own
persisted row. -/
def demoteRow (user : Nat) (address_type : String) (r : AddressRow) : AddressRow :=
  if r.user = user ∧ r.address_type = address_type ∧ r.default = true then
    { r with default := false }
  else r

/-- Django `Model.save` persistence (the `super().save(*args, **kwargs)` call):
update the row with the instance's primary key when one exists, insert the
instance as a new row otherwise. -/
def upsertRow (a : AddressRow) (db : List AddressRow) : List AddressRow :=
  if db.any (fun r => decide (r.id = a.id)) then
    db.map (fun r => if r.id = a.id then a else r)
  else
    db ++ [a]

/-- `Address.save` (models.py lines 194-211): when the instance is marked
default, first run the demotion update over the table, then persist the
instance. -/
def Address.save (a : AddressRow) (db : List AddressRow) : List AddressRow :=
  let db' := if a.default then db.map (demoteRow a.user a.address_type) else db
  upsertRow a db'

/-- Number of rows of the table marked default for a given (owner, type) pair. -/
def countDefaults (user : Nat) (address_type : String) (db : List AddressRow) : Nat :=
  db.countP (fun r => decide (r.user = user ∧ r.address_type = address_type ∧ r.default = true))

/-! ## Verification-code helper (helpers.py) and settings (app_settings.py) -/

/-- The attributes of Python's `datetime.timezone` class, which is the name
`timezone` bound by helpers.py line 3 (`from datetime import datetime,
timedelta, timezone`).  The class offers fixed-offset timezone instances and
the `tzinfo` protocol; it has no `now` attribute. -/
def datetime_timezone_attrs : List String :=
  ["utc", "min", "max", "utcoffset", "tzname", "dst", "fromutc"]

/-- The attribute access `timezone.now` followed by a call, as executed by
helpers.py line 8: produce the current clock reading when the class has a
`now` attribute, and raise `AttributeError` otherwise. -/
def timezone_now (clock : Int) : Except String Int :=
  if datetime_timezone_attrs.contains "now" then Except.ok clock
  else Except.error "AttributeError: type object timezone has no attribute now"

/-- `calcule_verification_code_expiration` (helpers.py lines 6-8):
`timezone.now() + timedelta(minutes=minutes)`.  The clock is the injected
current time in seconds; `timedelta(minutes=m)` is `60 * m` seconds. -/
def calcule_verification_code_expiration (clock : Int) (minutes : Int) : Except String Int := do
  let n ← timezone_now clock
  pure (n + 60 * minutes)

/-- The process-wide Django settings read by `VerificationCodeSettings`:
each of the four names is either configured or absent
(`getattr(settings, name, default)`). -/
structure DjangoSettingsOverrides where
  VERIFICATION_CODE_LENGTH : Option Nat := none
  VERIFICATION_CODE_CHARACTERS : Option String := none
  VERIFICATION_CODE_MAX_ATTEMPTS : Option Nat := none
  VERIFICATION_CODE_EXPIRATION_MINUTES : Option Nat := none
deriving DecidableEq, Repr

/-- `VerificationCodeSettings.CODE_LENGTH` (app_settings.py lines 9-12). -/
def VerificationCodeSettings.CODE_LENGTH (s : DjangoSettingsOverrides) : Nat :=
  s.VERIFICATION_CODE_LENGTH.getD 6

/-- `VerificationCodeSettings.CODE_CHARACTERS` (app_settings.py lines 14-17). -/
def VerificationCodeSettings.CODE_CHARACTERS (s : DjangoSettingsOverrides) : String :=
  s.VERIFICATION_CODE_CHARACTERS.getD "0123456789"

/-- `VerificationCodeSettings.MAX_ATTEMPTS` (app_settings.py lines 19-22). -/
def VerificationCodeSettings.MAX_ATTEMPTS (s : DjangoSettingsOverrides) : Nat :=
  s.VERIFICATION_CODE_MAX_ATTEMPTS.getD 5

/-- `VerificationCodeSettings.EXPIRATION_MINUTES` (app_settings.py lines 24-27). -/
def VerificationCodeSettings.EXPIRATION_MINUTES (s : DjangoSettingsOverrides) : Nat :=
  s.VERIFICATION_CODE_EXPIRATION_MINUTES.getD 7

/-! ## Verification-code validation (modelled from the spec) -/

/-- Modelled from the spec: the result taxonomy of `validate` — `SUCCESS`,
`EXPIRED`, `LOCKED`, `INVALID_CODE` (carrying the attempts remaining), and
`ALREADY_CONSUMED`.  The repository stores only the verification-code settings
and the expiration helper; the validation routine itself is absent from the
sources. -/
inductive ValidationResult where
  | SUCCESS
  | EXPIRED
  | LOCKED
  | INVALID_CODE (attemptsRemaining : Nat)
  | ALREADY_CONSUMED
deriving DecidableEq, Repr

/-- Modelled from the spec: the persisted verification-code record —
`code`, `expires_at`, `attempts_used`, plus the consumed marker implied by the
lifecycle ("consumed on successful validation"). -/
structure VerificationCode where
  code : String
  expires_at : Int
  attempts_used : Nat
  consumed : Bool
deriving DecidableEq, Repr

/-- Modelled from the spec: `validate(owner, submitted_code)`, absent from the
sources.  A consumed code always fails `ALREADY_CONSUMED`; a locked code
(`attempts_used >= MAX_ATTEMPTS`) fails `LOCKED` before the code comparison and
regardless of expiration — the spec leaves the locked-versus-expired
short-circuit order an implementation choice but its invariant fixes "once
equal, the code is locked regardless of expiration", so the locked check comes
first; an expired code (`now > expires_at`) fails `EXPIRED`; a mismatch
increments `attempts_used` and fails `INVALID_CODE` with the attempts
remaining; a match marks the code consumed and succeeds. -/
def validate (s : DjangoSettingsOverrides) (vc : VerificationCode) (now : Int)
    (submitted : String) : ValidationResult × VerificationCode :=
  if vc.consumed then
    (ValidationResult.ALREADY_CONSUMED, vc)
  else if VerificationCodeSettings.MAX_ATTEMPTS s ≤ vc.attempts_used then
    (ValidationResult.LOCKED, vc)
  else if vc.expires_at < now then
    (ValidationResult.EXPIRED, vc)
  else if submitted = vc.code then
    (ValidationResult.SUCCESS, { vc with consumed := true })
  else
    (ValidationResult.INVALID_CODE
        (VerificationCodeSettings.MAX_ATTEMPTS s - (vc.attempts_used + 1)),
      { vc with attempts_used := vc.attempts_used + 1 })

deriving instance DecidableEq for Except

/-! ## General facts about the embedded operations -/

theorem option_getD_true_eq_true_iff (o : Option Bool) :
    o.getD true = true ↔ o ≠ some false := by
  rcases o with _ | b
  · simp
  · cases b <;> simp

theorem demoteRow_id (u : Nat) (t : String) (r : AddressRow) :
    (demoteRow u t r).id = r.id := by
  unfold demoteRow
  split <;> rfl

theorem demoteRow_user (u : Nat) (t : String) (r : AddressRow) :
    (demoteRow u t r).user = r.user := by
  unfold demoteRow
  split <;> rfl

theorem demoteRow_address_type (u : Nat) (t : String) (r : AddressRow) :
    (demoteRow u t r).address_type = r.address_type := by
  unfold demoteRow
  split <;> rfl

theorem demoteRow_kills (u : Nat) (t : String) (r : AddressRow)
    (hu : (demoteRow u t r).user = u) (ht : (demoteRow u t r).address_type = t) :
    (demoteRow u t r).default = false := by
  by_cases h : r.user = u ∧ r.address_type = t ∧ r.default = true
  · simp [demoteRow, h]
  · simp only [demoteRow, if_neg h] at hu ht ⊢
    rcases Bool.eq_false_or_eq_true r.default with hd | hd
    · exact absurd ⟨hu, ht, hd⟩ h
    · exact hd

theorem countP_id_match_le_one (i : Nat) (db : List AddressRow)
    (h : (db.map AddressRow.id).Nodup) :
    db.countP (fun r => decide (r.id = i)) ≤ 1 := by
  induction db with
  | nil => simp
  | cons r rest ih =>
    rw [List.map_cons, List.nodup_cons] at h
    rw [List.countP_cons]
    by_cases hr : r.id = i
    · have hz : rest.countP (fun r => decide (r.id = i)) = 0 := by
        refine List.countP_eq_zero.2 ?_
        intro x hx
        simp only [decide_eq_true_eq]
        intro hxi
        apply h.1
        have hxr : x.id = r.id := by rw [hxi, hr]
        exact hxr ▸ List.mem_map_of_mem AddressRow.id hx
      simp [hz, hr]
    · simpa [hr] using ih h.2

/-! ## Claim theorems -/

/-- C2: the spec states that `calcule_verification_code_expiration(m)` returns
the current time plus `m` minutes.  The code cannot: helpers.py binds
`timezone` to `datetime.timezone` (not `django.utils.timezone`), and that class
has no `now` attribute, so every call raises `AttributeError` instead of
returning a timestamp — for every clock reading and every minute count the
embedded function produces the error, never a value. -/
theorem calcule_verification_code_expiration_raises (clock minutes : Int) :
    calcule_verification_code_expiration clock minutes =
      Except.error "AttributeError: type object timezone has no attribute now" := rfl

/-- C3: once `attempts_used` has reached `MAX_ATTEMPTS`, every validate call on
a not-yet-consumed code fails with `LOCKED` — for every submitted string
(including the stored code itself) and every clock reading (including times
past `expires_at`) — and the state is returned unchanged, so the comparison
with the stored code never happens and no match signal can leak. -/
theorem validate_locked_after_max_attempts (s : DjangoSettingsOverrides)
    (vc : VerificationCode) (now : Int) (submitted : String)
    (hconsumed : vc.consumed = false)
    (hlocked : VerificationCodeSettings.MAX_ATTEMPTS s ≤ vc.attempts_used) :
    validate s vc now submitted = (ValidationResult.LOCKED, vc) := by
  simp [validate, hconsumed, hlocked]

/-- Witness for C3: with the default settings (`MAX_ATTEMPTS = 5`), a code
with five used attempts, already past its expiration, rejects even its own
stored value with `LOCKED`. -/
theorem validate_locked_after_max_attempts_witness :
    (⟨"482910", 0, 5, false⟩ : VerificationCode).consumed = false ∧
    VerificationCodeSettings.MAX_ATTEMPTS {} ≤
      (⟨"482910", 0, 5, false⟩ : VerificationCode).attempts_used ∧
    validate {} ⟨"482910", 0, 5, false⟩ 100 "482910" =
      (ValidationResult.LOCKED, ⟨"482910", 0, 5, false⟩) :=
  ⟨rfl, by decide,
    validate_locked_after_max_attempts {} ⟨"482910", 0, 5, false⟩ 100 "482910" rfl (by decide)⟩

/-- C4: `create_user` fails with the invalid-email error exactly when the email
is empty; for every non-empty email the created user's stored email is the
input email normalized (`normalize_email`) and then lowercased in full
(`pyLower`). -/
theorem create_user_email_validation (email : String) (password : Option String)
    (extra : ExtraFields) :
    (email = "" → CustomUserManager.create_user email password extra =
        Except.error "The Email field cannot be empty") ∧
    (email ≠ "" → ∃ u, CustomUserManager.create_user email password extra = Except.ok u ∧
        u.email = pyLower (normalize_email email)) := by
  constructor
  · intro h
    simp [CustomUserManager.create_user, CustomUserManager._create_user, h]
  · intro h
    refine ⟨{ email := pyLower (normalize_email email),
              is_staff := extra.is_staff.getD false,
              is_superuser := extra.is_superuser.getD false,
              passwordState := if pyTruthy password then PasswordState.hashed (password.getD "")
                               else PasswordState.unusable }, ?_, rfl⟩
    simp [CustomUserManager.create_user, CustomUserManager._create_user, h]

/-- Witness for C4: the empty email is rejected, and `"A@X.Com"` (with an
appended space) is stored as `"a@x.com"`. -/
theorem create_user_email_validation_witness :
    CustomUserManager.create_user "" none {} =
      Except.error "The Email field cannot be empty" ∧
    (∃ u, CustomUserManager.create_user "A@X.Com " none {} = Except.ok u ∧
        u.email = pyLower (normalize_email "A@X.Com ")) ∧
    pyLower (normalize_email "A@X.Com ") = "a@x.com" :=
  ⟨(create_user_email_validation "" none {}).1 rfl,
   (create_user_email_validation "A@X.Com " none {}).2 (by decide),
   by decide⟩

/-- C5 counterexample: the claim says a supplied password is hashed before
storage, but `create_user` called with the supplied empty-string password
stores the explicit unusable credential, not the hash of the empty string
(`if password:` in `_create_user` treats the empty string as falsy). -/
theorem create_user_empty_password_counterexample :
    CustomUserManager.create_user "a@x.com" (some "") {} =
      Except.ok { email := "a@x.com", is_staff := false, is_superuser := false,
                  passwordState := PasswordState.unusable } ∧
    PasswordState.unusable ≠ PasswordState.hashed "" :=
  ⟨by decide, by decide⟩

/-- C5 (amended): for every valid (non-empty) email, `create_user` with the
password omitted — or supplied as the empty string — yields a user with the
explicitly unusable credential; when a non-empty password is supplied it is
hashed before storage; and the `is_staff` / `is_superuser` flags default to
false when not caller-supplied. -/
theorem create_user_password_handling (email : String) (password : Option String)
    (extra : ExtraFields) (hemail : email ≠ "") :
    ∃ u, CustomUserManager.create_user email password extra = Except.ok u ∧
      (pyTruthy password = false → u.passwordState = PasswordState.unusable) ∧
      (∀ p, password = some p → p ≠ "" → u.passwordState = PasswordState.hashed p) ∧
      (extra.is_staff = none → u.is_staff = false) ∧
      (extra.is_superuser = none → u.is_superuser = false) := by
  refine ⟨{ email := pyLower (normalize_email email),
            is_staff := extra.is_staff.getD false,
            is_superuser := extra.is_superuser.getD false,
            passwordState := if pyTruthy password then PasswordState.hashed (password.getD "")
                             else PasswordState.unusable }, ?_, ?_, ?_, ?_, ?_⟩
  · simp [CustomUserManager.create_user, CustomUserManager._create_user, hemail]
  · intro hp
    simp [hp]
  · intro p hp hne
    subst hp
    simp [pyTruthy, hne]
  · intro h
    simp [h]
  · intro h
    simp [h]

/-- Witness for C5 (amended): at `email = "a@x.com"` with password `"secret"`
and no caller-supplied flags. -/
theorem create_user_password_handling_witness :
    ("a@x.com" : String) ≠ "" ∧
    ∃ u, CustomUserManager.create_user "a@x.com" (some "secret") {} = Except.ok u ∧
      (pyTruthy (some "secret") = false → u.passwordState = PasswordState.unusable) ∧
      (∀ p, (some "secret" : Option String) = some p → p ≠ "" →
        u.passwordState = PasswordState.hashed p) ∧
      (ExtraFields.is_staff {} = none → u.is_staff = false) ∧
      (ExtraFields.is_superuser {} = none → u.is_superuser = false) :=
  ⟨by decide, create_user_password_handling "a@x.com" (some "secret") {} (by decide)⟩

/-- C6: `create_superuser` with a falsy password and no contradicting flags
fails with the password-required error; it never returns a user when the
password is falsy or when a caller-supplied flag is explicitly false; and every
user it does return has `is_staff = true` and `is_superuser = true`. -/
theorem create_superuser_requirements (email : String) (password : Option String)
    (extra : ExtraFields) :
    (pyTruthy password = false → extra.is_staff ≠ some false →
      extra.is_superuser ≠ some false →
      CustomUserManager.create_superuser email password extra =
        Except.error "Superuser must have a password") ∧
    (pyTruthy password = false →
      ∀ u, CustomUserManager.create_superuser email password extra ≠ Except.ok u) ∧
    (extra.is_staff = some false →
      ∀ u, CustomUserManager.create_superuser email password extra ≠ Except.ok u) ∧
    (extra.is_superuser = some false →
      ∀ u, CustomUserManager.create_superuser email password extra ≠ Except.ok u) ∧
    (∀ u, CustomUserManager.create_superuser email password extra = Except.ok u →
      u.is_staff = true ∧ u.is_superuser = true) := by
  rcases extra with ⟨st, su⟩
  rcases st with _ | sb <;> rcases su with _ | ub <;> (try cases sb) <;> (try cases ub) <;>
    cases hp : pyTruthy password <;> by_cases he : email = "" <;>
    simp_all [CustomUserManager.create_superuser, CustomUserManager._create_user]

/-- Witness for C6: with no password and no caller-supplied flags the
password-required error is returned. -/
theorem create_superuser_requirements_witness :
    pyTruthy none = false ∧
    CustomUserManager.create_superuser "a@x.com" none {} =
      Except.error "Superuser must have a password" :=
  ⟨rfl, (create_superuser_requirements "a@x.com" none {}).1 rfl (by simp) (by simp)⟩

/-- C9: `create_user` treats every falsy password the same way — calling it
with the empty-string password returns exactly what calling it with the
password omitted returns — and no created user ever stores the hash of the
empty password. -/
theorem create_user_falsy_password (email : String) (extra : ExtraFields) :
    CustomUserManager.create_user email (some "") extra =
      CustomUserManager.create_user email none extra ∧
    (∀ (password : Option String) (u : PyUser),
      CustomUserManager.create_user email password extra = Except.ok u →
        u.passwordState ≠ PasswordState.hashed "") := by
  constructor
  · rfl
  · intro password u h
    by_cases he : email = ""
    · simp [CustomUserManager.create_user, CustomUserManager._create_user, he] at h
    · simp only [CustomUserManager.create_user, CustomUserManager._create_user, he,
        if_false, ite_false, Except.ok.injEq, reduceIte] at h
      subst h
      cases hp : pyTruthy password with
      | false => simp [hp]
      | true =>
        rcases password with _ | s
        · simp [pyTruthy] at hp
        · have hs : s ≠ "" := by simpa [pyTruthy] using hp
          simp [hp, hs]

/-- Witness for C9: at `email = "a@x.com"`, the empty-string-password call and
the omitted-password call coincide, and the created user does not hold the
hash of the empty password. -/
theorem create_user_falsy_password_witness :
    CustomUserManager.create_user "a@x.com" (some "") {} =
      CustomUserManager.create_user "a@x.com" none {} ∧
    (CustomUserManager.create_user "a@x.com" (some "") {} =
        Except.ok { email := "a@x.com", is_staff := false, is_superuser := false,
                    passwordState := PasswordState.unusable } →
      PyUser.passwordState { email := "a@x.com", is_staff := false, is_superuser := false,
                             passwordState := PasswordState.unusable } ≠
        PasswordState.hashed "") :=
  ⟨(create_user_falsy_password "a@x.com" {}).1,
   (create_user_falsy_password "a@x.com" {}).2 (some "") _⟩

theorem filter_ne_map_replace (a : AddressRow) (db : List AddressRow) :
    (db.map (fun r => if r.id = a.id then a else r)).filter
        (fun r => decide (r.id ≠ a.id)) =
      db.filter (fun r => decide (r.id ≠ a.id)) := by
  induction db with
  | nil => rfl
  | cons r rest ih =>
    simp only [ne_eq, decide_not] at ih ⊢
    by_cases hr : r.id = a.id
    · simp [List.filter_cons, hr, ih]
    · simp [List.filter_cons, hr, ih]

/-- C8: saving an address whose default flag is false touches no other row —
the saved table, restricted to every row other than the saved address's own,
equals the original table there, so in particular every other address keeps its
default flag (for every user and every type). -/
theorem address_save_nondefault_frame (a : AddressRow) (db : List AddressRow)
    (h : a.default = false) :
    (Address.save a db).filter (fun r => decide (r.id ≠ a.id)) =
      db.filter (fun r => decide (r.id ≠ a.id)) := by
  have hsave : Address.save a db = upsertRow a db := by
    simp [Address.save, h]
  rw [hsave, upsertRow]
  split
  · exact filter_ne_map_replace a db
  · simp [List.filter_append]

/-- Witness for C8: re-saving a non-default shipping address next to an
existing default of the same user and type leaves the other row untouched. -/
theorem address_save_nondefault_frame_witness :
    (⟨1, 7, "US", "A", "B", "+15550000001", "s", "", "", "c", "", "S", false⟩ :
        AddressRow).default = false ∧
    (Address.save ⟨1, 7, "US", "A", "B", "+15550000001", "s", "", "", "c", "", "S", false⟩
        [⟨2, 7, "US", "C", "D", "+15550000002", "t", "", "", "c", "", "S", true⟩]).filter
        (fun r => decide (r.id ≠ 1)) =
      ([⟨2, 7, "US", "C", "D", "+15550000002", "t", "", "", "c", "", "S", true⟩] :
          List AddressRow).filter (fun r => decide (r.id ≠ 1)) :=
  ⟨rfl, address_save_nondefault_frame
    ⟨1, 7, "US", "A", "B", "+15550000001", "s", "", "", "c", "", "S", false⟩
    [⟨2, 7, "US", "C", "D", "+15550000002", "t", "", "", "c", "", "S", true⟩] rfl⟩

/-- C10: re-saving an address that is already the persisted (and unique)
default row for its (owner, address_type) pair reproduces the table exactly:
the demotion query does hit the address's own persisted row, but the subsequent
persist rewrites that row from the in-memory instance, so the save is a no-op
on the table. -/
theorem address_save_resave_default_noop (a : AddressRow) (db : List AddressRow)
    (hmem : a ∈ db) (hdef : a.default = true)
    (hids : (db.map AddressRow.id).Nodup)
    (huniq : ∀ r ∈ db, r.user = a.user → r.address_type = a.address_type →
      r.default = true → r = a) :
    Address.save a db = db := by
  have hany : (db.map (demoteRow a.user a.address_type)).any
      (fun r => decide (r.id = a.id)) = true := by
    refine List.any_eq_true.2 ⟨demoteRow a.user a.address_type a,
      List.mem_map_of_mem _ hmem, ?_⟩
    simp [demoteRow_id]
  simp only [Address.save, hdef, if_true, upsertRow, hany, List.map_map]
  have hpt : ∀ r ∈ db,
      ((fun r => if r.id = a.id then a else r) ∘ demoteRow a.user a.address_type) r = r := by
    intro r hr
    by_cases hra : r = a
    · subst hra
      simp [demoteRow, hdef]
    · have hfr : demoteRow a.user a.address_type r = r := by
        rw [demoteRow, if_neg]
        intro hc
        exact hra (huniq r hr hc.1 hc.2.1 hc.2.2)
      simp only [Function.comp_apply, hfr]
      rw [if_neg]
      intro hid
      exact hra (List.inj_on_of_nodup_map hids hr hmem hid)
  calc db.map ((fun r => if r.id = a.id then a else r) ∘ demoteRow a.user a.address_type)
      = db.map id := List.map_congr_left hpt
    _ = db := List.map_id db

/-- Witness for C10: a table holding the saved default address and a
non-default sibling of the same pair is reproduced unchanged. -/
theorem address_save_resave_default_noop_witness :
    (⟨1, 7, "US", "A", "B", "+15550000001", "s", "", "", "c", "", "S", true⟩ : AddressRow) ∈
      ([⟨1, 7, "US", "A", "B", "+15550000001", "s", "", "", "c", "", "S", true⟩,
        ⟨2, 7, "US", "C", "D", "+15550000002", "t", "", "", "c", "", "S", false⟩] :
        List AddressRow) ∧
    Address.save ⟨1, 7, "US", "A", "B", "+15550000001", "s", "", "", "c", "", "S", true⟩
        [⟨1, 7, "US", "A", "B", "+15550000001", "s", "", "", "c", "", "S", true⟩,
         ⟨2, 7, "US", "C", "D", "+15550000002", "t", "", "", "c", "", "S", false⟩] =
      [⟨1, 7, "US", "A", "B", "+15550000001", "s", "", "", "c", "", "S", true⟩,
       ⟨2, 7, "US", "C", "D", "+15550000002", "t", "", "", "c", "", "S", false⟩] :=
  ⟨by decide, address_save_resave_default_noop
    ⟨1, 7, "US", "A", "B", "+15550000001", "s", "", "", "c", "", "S", true⟩
    [⟨1, 7, "US", "A", "B", "+15550000001", "s", "", "", "c", "", "S", true⟩,
     ⟨2, 7, "US", "C", "D", "+15550000002", "t", "", "", "c", "", "S", false⟩]
    (by decide) rfl (by decide) (by decide)⟩

/-- C1: saving an address marked default first runs the demotion update and
then persists the instance, so in the resulting table every row other than the
saved address's own sharing its (owner, address_type) pair has
`default = false`, and for every (owner, address_type) pair — the saved pair
unconditionally, any other pair provided it already satisfied the invariant —
at most one row is marked default after the save. -/
theorem address_save_default_invariant (a : AddressRow) (db : List AddressRow)
    (user : Nat) (address_type : String)
    (hdef : a.default = true)
    (hids : (db.map AddressRow.id).Nodup)
    (hprev : (user = a.user ∧ address_type = a.address_type) ∨
      countDefaults user address_type db ≤ 1) :
    (∀ r ∈ Address.save a db, r.id ≠ a.id → r.user = a.user →
      r.address_type = a.address_type → r.default = false) ∧
    countDefaults user address_type (Address.save a db) ≤ 1 := by
  have hsave : Address.save a db = upsertRow a (db.map (demoteRow a.user a.address_type)) := by
    simp [Address.save, hdef]
  constructor
  · intro r hr hid hu ht
    rw [hsave, upsertRow] at hr
    split at hr
    · rw [List.map_map] at hr
      obtain ⟨x, hx, hgx⟩ := List.mem_map.1 hr
      simp only [Function.comp_apply] at hgx
      by_cases hfx : (demoteRow a.user a.address_type x).id = a.id
      · rw [if_pos hfx] at hgx
        exact absurd (hgx ▸ rfl) hid
      · rw [if_neg hfx] at hgx
        subst hgx
        exact demoteRow_kills _ _ _ hu ht
    · rcases List.mem_append.1 hr with hr' | hr'
      · obtain ⟨x, hx, hgx⟩ := List.mem_map.1 hr'
        subst hgx
        exact demoteRow_kills _ _ _ hu ht
      · rw [List.mem_singleton] at hr'
        exact absurd (hr' ▸ rfl) hid
  · rw [hsave, upsertRow]
    by_cases hpair : user = a.user ∧ address_type = a.address_type
    · obtain ⟨hu, ht⟩ := hpair
      subst hu
      subst ht
      split
      · rw [List.map_map, countDefaults, List.countP_map]
        refine le_trans (List.countP_mono_left ?_) (countP_id_match_le_one a.id db hids)
        intro x _ hpx
        simp only [Function.comp_apply, decide_eq_true_eq] at hpx ⊢
        by_cases hfx : (demoteRow a.user a.address_type x).id = a.id
        · rw [demoteRow_id] at hfx
          exact hfx
        · rw [if_neg hfx] at hpx
          exact absurd (demoteRow_kills _ _ _ hpx.1 hpx.2.1) (by simp [hpx.2.2])
      · rw [countDefaults, List.countP_append, List.countP_map]
        have h0 : db.countP
            ((fun r => decide (r.user = a.user ∧ r.address_type = a.address_type ∧
              r.default = true)) ∘ demoteRow a.user a.address_type) = 0 := by
          refine List.countP_eq_zero.2 ?_
          intro x _
          simp only [Function.comp_apply, decide_eq_true_eq]
          intro hpx
          exact absurd (demoteRow_kills _ _ _ hpx.1 hpx.2.1) (by simp [hpx.2.2])
        rw [h0]
        simp [List.countP_cons, hdef]
    · have hc : countDefaults user address_type db ≤ 1 := hprev.resolve_left hpair
      have hpf : ∀ x ∈ db,
          ((fun r : AddressRow => decide (r.user = user ∧ r.address_type = address_type ∧
            r.default = true)) ∘ demoteRow a.user a.address_type) x = true →
          decide (x.user = user ∧ x.address_type = address_type ∧ x.default = true) = true := by
        intro x _ hpx
        simp only [Function.comp_apply, decide_eq_true_eq] at hpx ⊢
        by_cases hcx : x.user = a.user ∧ x.address_type = a.address_type ∧ x.default = true
        · rw [demoteRow, if_pos hcx] at hpx
          exact absurd hpx.2.2 (by simp)
        · rw [demoteRow, if_neg hcx] at hpx
          exact hpx
      split
      · rw [List.map_map, countDefaults, List.countP_map]
        refine le_trans (List.countP_mono_left ?_) hc
        intro x hx hpx
        have hpx' := hpx
        simp only [Function.comp_apply, decide_eq_true_eq] at hpx'
        by_cases hfx : (demoteRow a.user a.address_type x).id = a.id
        · rw [if_pos hfx] at hpx'
          exact absurd ⟨hpx'.1.symm, hpx'.2.1.symm⟩ hpair
        · rw [if_neg hfx] at hpx'
          exact hpf x hx (by simp only [Function.comp_apply, decide_eq_true_eq]; exact hpx')
      · rw [countDefaults, List.countP_append, List.countP_map]
        have h1 := List.countP_mono_left hpf
        have h2 : List.countP
            (fun r : AddressRow => decide (r.user = user ∧ r.address_type = address_type ∧
              r.default = true)) [a] = 0 := by
          rw [List.countP_cons, List.countP_nil]
          have hpa : decide (AddressRow.user a = user ∧ AddressRow.address_type a = address_type ∧
              AddressRow.default a = true) = false := by
            rw [decide_eq_false_iff_not]
            intro hq
            exact hpair ⟨hq.1.symm, hq.2.1.symm⟩
          simp [hpa]
        rw [h2]
        simpa using le_trans h1 hc

/-- Witness for C1: user 7 saves address 1 as default shipping while address 2
is the persisted default of the same pair; afterwards address 2 is demoted and
the pair (7, "S") — checked here together with the untouched pair (8, "S") —
has at most one default. -/
theorem address_save_default_invariant_witness :
    (⟨1, 7, "US", "A", "B", "+15550000001", "s", "", "", "c", "", "S", true⟩ :
      AddressRow).default = true ∧
    (∀ r ∈ Address.save
        ⟨1, 7, "US", "A", "B", "+15550000001", "s", "", "", "c", "", "S", true⟩
        [⟨2, 7, "US", "C", "D", "+15550000002", "t", "", "", "c", "", "S", true⟩,
         ⟨3, 8, "US", "E", "F", "+15550000003", "u", "", "", "c", "", "S", true⟩],
      r.id ≠ 1 → r.user = 7 → r.address_type = "S" → r.default = false) ∧
    countDefaults 7 "S" (Address.save
        ⟨1, 7, "US", "A", "B", "+15550000001", "s", "", "", "c", "", "S", true⟩
        [⟨2, 7, "US", "C", "D", "+15550000002", "t", "", "", "c", "", "S", true⟩,
         ⟨3, 8, "US", "E", "F", "+15550000003", "u", "", "", "c", "", "S", true⟩]) ≤ 1 :=
  ⟨rfl,
   (address_save_default_invariant
      ⟨1, 7, "US", "A", "B", "+15550000001", "s", "", "", "c", "", "S", true⟩
      [⟨2, 7, "US", "C", "D", "+15550000002", "t", "", "", "c", "", "S", true⟩,
       ⟨3, 8, "US", "E", "F", "+15550000003", "u", "", "", "c", "", "S", true⟩]
      7 "S" rfl (by decide) (Or.inl ⟨rfl, rfl⟩)).1,
   (address_save_default_invariant
      ⟨1, 7, "US", "A", "B", "+15550000001", "s", "", "", "c", "", "S", true⟩
      [⟨2, 7, "US", "C", "D", "+15550000002", "t", "", "", "c", "", "S", true⟩,
       ⟨3, 8, "US", "E", "F", "+15550000003", "u", "", "", "c", "", "S", true⟩]
      7 "S" rfl (by decide) (Or.inl ⟨rfl, rfl⟩)).2⟩

/-- C7: the store's constraints make email uniqueness case-insensitive — an
insert whose email equals an existing row's email after lowercasing fails with
the duplicate-email error (in particular a second user whose email differs only
in case) — and keep present phone numbers globally unique: an insert sharing a
present phone with an existing row fails, and a successful insert preserves
both the case-insensitive-email and the phone uniqueness invariants. -/
theorem user_email_phone_uniqueness (db : List UserRow) (u : UserRow) :
    ((∃ v ∈ db, pyLower v.email = pyLower u.email) →
      insertUser u db = Except.error "DUPLICATE email") ∧
    ((∃ v ∈ db, v.phone.isSome ∧ v.phone = u.phone) →
      exceptFailed (insertUser u db) = true) ∧
    (emailsCIUnique db → phonesUnique db →
      ∀ db2, insertUser u db = Except.ok db2 → emailsCIUnique db2 ∧ phonesUnique db2) := by
  refine ⟨?_, ?_, ?_⟩
  · rintro ⟨v, hv, heq⟩
    have h2 : (db.any fun w => decide (pyLower w.email = pyLower u.email)) = true :=
      List.any_eq_true.2 ⟨v, hv, by simp [heq]⟩
    rw [insertUser]
    by_cases h1 : (db.any fun w => decide (w.email = u.email)) = true
    · rw [if_pos h1]
    · rw [if_neg h1, if_pos h2]
  · rintro ⟨v, hv, hsome, heq⟩
    have h3 : (db.any fun w => phoneConflict w u) = true :=
      List.any_eq_true.2 ⟨v, hv, by
        have hu : u.phone.isSome = true := heq ▸ hsome
        simp [phoneConflict, heq, hu]⟩
    rw [insertUser]
    repeat' split
    all_goals first | rfl | simp_all
  · intro hci hph db2 hok
    rw [insertUser] at hok
    by_cases h1 : (db.any fun w => decide (w.email = u.email)) = true
    · rw [if_pos h1] at hok
      exact absurd hok (by simp)
    rw [if_neg h1] at hok
    by_cases h2 : (db.any fun w => decide (pyLower w.email = pyLower u.email)) = true
    · rw [if_pos h2] at hok
      exact absurd hok (by simp)
    rw [if_neg h2] at hok
    by_cases h3 : (db.any fun w => phoneConflict w u) = true
    · rw [if_pos h3] at hok
      exact absurd hok (by simp)
    rw [if_neg h3] at hok
    have hdb2 : db ++ [u] = db2 := by
      simpa using hok
    subst hdb2
    have h2' : ∀ v ∈ db, pyLower v.email ≠ pyLower u.email := by
      intro v hv hcontra
      exact h2 (List.any_eq_true.2 ⟨v, hv, by simp [hcontra]⟩)
    have h3' : ∀ v ∈ db, v.phone.isSome → v.phone ≠ u.phone := by
      intro v hv hs hcontra
      refine h3 (List.any_eq_true.2 ⟨v, hv, ?_⟩)
      have hu : u.phone.isSome = true := hcontra ▸ hs
      simp [phoneConflict, hcontra, hu]
    constructor
    · rw [emailsCIUnique, List.pairwise_append]
      refine ⟨hci, List.pairwise_singleton _ _, ?_⟩
      intro v hv w hw
      rw [List.mem_singleton] at hw
      subst hw
      exact h2' v hv
    · rw [phonesUnique, List.pairwise_append]
      refine ⟨hph, List.pairwise_singleton _ _, ?_⟩
      intro v hv w hw
      rw [List.mem_singleton] at hw
      subst hw
      intro hs
      exact h3' v hv hs

/-- Witness for C7: inserting `A@X.com` after `a@x.com` fails with the
duplicate-email error; inserting a row reusing phone `+15550000001` fails; and
a successful insert into a one-row table preserves both invariants. -/
theorem user_email_phone_uniqueness_witness :
    insertUser ⟨"A@X.com", none⟩ [⟨"a@x.com", some "+15550000001"⟩] =
      Except.error "DUPLICATE email" ∧
    exceptFailed (insertUser ⟨"b@y.com", some "+15550000001"⟩
      [⟨"a@x.com", some "+15550000001"⟩]) = true ∧
    (emailsCIUnique [⟨"a@x.com", some "+15550000001"⟩, ⟨"b@y.com", some "+15550000002"⟩] ∧
      phonesUnique [⟨"a@x.com", some "+15550000001"⟩, ⟨"b@y.com", some "+15550000002"⟩]) :=
  ⟨(user_email_phone_uniqueness [⟨"a@x.com", some "+15550000001"⟩] ⟨"A@X.com", none⟩).1
      ⟨⟨"a@x.com", some "+15550000001"⟩, by simp, by decide⟩,
   (user_email_phone_uniqueness [⟨"a@x.com", some "+15550000001"⟩]
      ⟨"b@y.com", some "+15550000001"⟩).2.1
      ⟨⟨"a@x.com", some "+15550000001"⟩, by simp, by decide, by decide⟩,
   (user_email_phone_uniqueness [⟨"a@x.com", some "+15550000001"⟩]
      ⟨"b@y.com", some "+15550000002"⟩).2.2
      (List.pairwise_singleton _ _) (List.pairwise_singleton _ _)
      [⟨"a@x.com", some "+15550000001"⟩, ⟨"b@y.com", some "+15550000002"⟩] (by decide)⟩
